import Mathlib

/-
  Verification of the LAS/LAZ point-record codec and VLR catalog
  (PDAL, src/io/private/las/Utils.hpp and its companion translation unit).

  Definitions in the first part of this file are shallow embeddings of the
  inline code in src/io/private/las/Utils.hpp.  Components whose bodies live
  in the (absent) implementation file are modelled from the specification
  text and carry a doc comment saying so.
-/

namespace PdalLas

/-! ## Compression (Utils.hpp lines 57-94) -/

/-- Embeds `enum class Compression` from Utils.hpp. -/
inductive Compression
  | LasZip
  | LazPerf
  | None
deriving DecidableEq, Repr

/-- Embeds `Utils::toupper` as used by `operator>>`: ASCII per-character
upper-casing of the token, applied over the underlying character list. -/
def toupper (s : String) : String := String.mk (s.data.map Char.toUpper)

/-- Embeds `operator>>(std::istream&, Compression&)` (Utils.hpp lines 64-77):
the extracted token is upper-cased; LASZIP and TRUE map to LasZip, LAZPERF to
LazPerf, and everything else to None.  Extraction never fails on a token. -/
def compressionFromString (s : String) : Compression :=
  let u := toupper s
  if u = "LASZIP" ∨ u = "TRUE" then Compression.LasZip
  else if u = "LAZPERF" then Compression.LazPerf
  else Compression.None

/-- Embeds `operator<<(std::ostream&, const Compression&)` (Utils.hpp lines
79-94). -/
def compressionToString : Compression → String
  | Compression.LasZip => "LasZip"
  | Compression.LazPerf => "LazPerf"
  | Compression.None => "None"

/-! ## Dimension primitives (pdal/Dimension.hpp, pdal/DimType.hpp) -/

/-- Embeds `pdal::Dimension::Type`: an enumerated primitive kind. -/
inductive DimensionType
  | None
  | Unsigned8
  | Signed8
  | Unsigned16
  | Signed16
  | Unsigned32
  | Signed32
  | Unsigned64
  | Signed64
  | Float
  | Double
deriving DecidableEq, Repr

/-- Embeds `pdal::Dimension::size`: byte size of each primitive kind. -/
def dimensionSize : DimensionType → Nat
  | DimensionType.None => 0
  | DimensionType.Unsigned8 => 1
  | DimensionType.Signed8 => 1
  | DimensionType.Unsigned16 => 2
  | DimensionType.Signed16 => 2
  | DimensionType.Unsigned32 => 4
  | DimensionType.Signed32 => 4
  | DimensionType.Unsigned64 => 8
  | DimensionType.Signed64 => 8
  | DimensionType.Float => 4
  | DimensionType.Double => 8

/-- Embeds `pdal::XForm`: a linear scale/offset transform.  The C++ doubles
are modelled as rationals so the scaling arithmetic is exact. -/
structure XForm where
  scale : ℚ
  offset : ℚ
deriving DecidableEq, Repr

/-- Embeds `pdal::DimType`: dimension id, primitive type and transform.
`Dimension::Id` is modelled as a natural number (`Unknown` = 0). -/
structure DimType where
  m_id : Nat
  m_type : DimensionType
  m_xform : XForm
deriving DecidableEq, Repr

/-! ## ExtraDim (Utils.hpp lines 96-125) -/

/-- Embeds `struct ExtraDim` (Utils.hpp lines 96-114). -/
structure ExtraDim where
  m_name : String
  m_dimType : DimType
  m_size : Nat
  m_byteOffset : Int
deriving DecidableEq, Repr

/-- Embeds the first `ExtraDim` constructor (name, type, byteOffset, scale,
offset): the dim id is Unknown, the size comes from `Dimension::size`. -/
def ExtraDim.mkTyped (name : String) (type : DimensionType) (byteOffset : Int)
    (scale offset : ℚ) : ExtraDim :=
  { m_name := name
    m_dimType := { m_id := 0, m_type := type, m_xform := { scale := scale, offset := offset } }
    m_size := dimensionSize type
    m_byteOffset := byteOffset }

/-- Embeds the second `ExtraDim` constructor (name, size, byteOffset): the
type is None and the transform is the `DimType` default (scale 1, offset 0). -/
def ExtraDim.mkRaw (name : String) (size : Nat) (byteOffset : Int) : ExtraDim :=
  { m_name := name
    m_dimType := { m_id := 0, m_type := DimensionType.None, m_xform := { scale := 1, offset := 0 } }
    m_size := size
    m_byteOffset := byteOffset }

/-- Embeds `operator==(const ExtraDim&, const ExtraDim&)` (Utils.hpp lines
117-125): compares only name, underlying dimension type and size. -/
def extraDimEq (ed1 ed2 : ExtraDim) : Bool :=
  ed1.m_name == ed2.m_name &&
    ed1.m_dimType.m_type == ed2.m_dimType.m_type &&
    ed1.m_size == ed2.m_size

/-! ## ExtraBytesSpec layout (Utils.hpp lines 129-145) -/

/-- Embeds the packed `struct ExtraBytesSpec` (Utils.hpp lines 130-143) as an
ordered list of (field name, byte size) pairs.  The struct is packed (pragma
pack(1)), so its size is the sum of the field sizes; each size is computed
from the declared C type of the field. -/
def extraBytesSpecLayout : List (String × Nat) :=
  [("m_reserved", 2),
   ("m_dataType", 1),
   ("m_options", 1),
   ("m_name", 32),
   ("m_reserved2", 4),
   ("m_noData", 3 * 8),
   ("m_min", 3 * 8),
   ("m_max", 3 * 8),
   ("m_scale", 3 * 8),
   ("m_offset", 3 * 8),
   ("m_description", 32)]

/-- Embeds `ExtraBytesSpecSize = sizeof(ExtraBytesSpec)` (Utils.hpp line
145): total byte size of the packed record. -/
def extraBytesSpecSize : Nat := (extraBytesSpecLayout.map Prod.snd).sum

/-! ## ExtraBytesIf (Utils.hpp lines 147-188) -/

/-- Embeds `class ExtraBytesIf` (the spec's ExtraByteDescriptor).  The three
scale and offset slots are modelled as functions from `Fin 3`. -/
structure ExtraBytesIf where
  m_type : DimensionType
  m_fieldCnt : Nat
  m_scale : Fin 3 → ℚ
  m_offset : Fin 3 → ℚ
  m_name : String
  m_description : String
  m_size : Nat

/-- Embeds the default constructor `ExtraBytesIf()` (Utils.hpp lines 150-157):
type None, field count 0, size 0, and every scale slot set to 1.0 with every
offset slot set to 0.0. -/
def extraBytesIfDefault : ExtraBytesIf :=
  { m_type := DimensionType.None
    m_fieldCnt := 0
    m_scale := fun _ => 1
    m_offset := fun _ => 0
    m_name := ""
    m_description := ""
    m_size := 0 }

/-- Embeds the writer-side constructor `ExtraBytesIf(name, type, description)`
(Utils.hpp lines 159-172): scale slots 0.0 (the scale option flag is always
cleared when the VLR is written), offset slots 0.0, and field count 0 exactly
when the type is None, otherwise 1. -/
def extraBytesIfMk (name : String) (type : DimensionType) (description : String) :
    ExtraBytesIf :=
  { m_type := type
    m_fieldCnt := if type = DimensionType.None then 0 else 1
    m_scale := fun _ => 0
    m_offset := fun _ => 0
    m_name := name
    m_description := description
    m_size := 0 }

/-! ## Point loaders and LoaderDriver (Utils.hpp lines 207-322)

The loader bodies live in the implementation file, which is not part of the
provided sources; they are modelled from the specification (sections 4.2 and
4.3).  Point records are modelled at field granularity: a typed point view
holds rational values for the scaled/floating fields and naturals for the
integer pass-through fields, and a raw record holds the stored integers. -/

/-- Embeds `pdal::Scaling`: the per-axis X/Y/Z transforms. -/
structure Scaling where
  m_xXform : XForm
  m_yXform : XForm
  m_zXform : XForm
deriving DecidableEq, Repr

/-- Modelled from the spec: `real = raw*scale + offset`, the transform a
loader applies when reading a stored integer coordinate (spec section 4.2). -/
def XForm.fromScaled (xf : XForm) (raw : Int) : ℚ := raw * xf.scale + xf.offset

/-- Modelled from the spec: the inverse transform applied by `pack`, rounding
to the nearest stored integer (spec sections 4.2 and 8: scaled integer
storage implies a round-trip tolerance of scale/2, which requires
round-to-nearest). -/
def XForm.toScaled (xf : XForm) (v : ℚ) : Int := round ((v - xf.offset) / xf.scale)

/-- Modelled from the spec: the typed (in-memory) view of one point, one slot
per logical field handled by the loader chain (spec section 4.2).  Extra-bytes
values are a list, one rational per extra dimension. -/
structure PointView where
  x : ℚ
  y : ℚ
  z : ℚ
  intensity : Nat
  returnInfo : Nat
  classification : Nat
  scanAngleRank : Nat
  userData : Nat
  pointSourceId : Nat
  gpstime : ℚ
  red : Nat
  green : Nat
  blue : Nat
  nir : Nat
  extras : List ℚ
deriving DecidableEq, Repr

/-- Modelled from the spec: the raw point record, one stored value per
logical field (coordinates as stored integers, GPS time as the stored
float64, colors/NIR as stored unsigned integers). -/
structure RawPoint where
  xi : Int
  yi : Int
  zi : Int
  intensity : Nat
  returnInfo : Nat
  classification : Nat
  scanAngleRank : Nat
  userData : Nat
  pointSourceId : Nat
  gpstime : ℚ
  red : Nat
  green : Nat
  blue : Nat
  nir : Nat
  extras : List Int
deriving DecidableEq, Repr

/-- Modelled from the spec: `V10BaseLoader::load` — core pre-1.4 fields; X/Y/Z
are descaled through the shared Scaling transform, the remaining core fields
pass through unscaled (spec section 4.2). -/
def v10Load (sc : Scaling) (raw : RawPoint) (p : PointView) : PointView :=
  { p with
    x := sc.m_xXform.fromScaled raw.xi
    y := sc.m_yXform.fromScaled raw.yi
    z := sc.m_zXform.fromScaled raw.zi
    intensity := raw.intensity
    returnInfo := raw.returnInfo
    classification := raw.classification
    scanAngleRank := raw.scanAngleRank
    userData := raw.userData
    pointSourceId := raw.pointSourceId }

/-- Modelled from the spec: `V10BaseLoader::pack` — the inverse of `v10Load`:
X/Y/Z are scaled back to stored integers, the remaining core fields pass
through unscaled. -/
def v10Pack (sc : Scaling) (p : PointView) (raw : RawPoint) : RawPoint :=
  { raw with
    xi := sc.m_xXform.toScaled p.x
    yi := sc.m_yXform.toScaled p.y
    zi := sc.m_zXform.toScaled p.z
    intensity := p.intensity
    returnInfo := p.returnInfo
    classification := p.classification
    scanAngleRank := p.scanAngleRank
    userData := p.userData
    pointSourceId := p.pointSourceId }

/-- Modelled from the spec: `V14BaseLoader::load` — the analogous 1.4 core
layout; at this field granularity it moves the same logical fields. -/
def v14Load (sc : Scaling) (raw : RawPoint) (p : PointView) : PointView :=
  v10Load sc raw p

/-- Modelled from the spec: `V14BaseLoader::pack`. -/
def v14Pack (sc : Scaling) (p : PointView) (raw : RawPoint) : RawPoint :=
  v10Pack sc p raw

/-- Modelled from the spec: `GpstimeLoader::load` — an 8-byte float64 copied
unscaled. -/
def gpstimeLoad (raw : RawPoint) (p : PointView) : PointView :=
  { p with gpstime := raw.gpstime }

/-- Modelled from the spec: `GpstimeLoader::pack`. -/
def gpstimePack (p : PointView) (raw : RawPoint) : RawPoint :=
  { raw with gpstime := p.gpstime }

/-- Modelled from the spec: `ColorLoader::load` — three uint16 RGB values
copied unscaled. -/
def colorLoad (raw : RawPoint) (p : PointView) : PointView :=
  { p with red := raw.red, green := raw.green, blue := raw.blue }

/-- Modelled from the spec: `ColorLoader::pack`. -/
def colorPack (p : PointView) (raw : RawPoint) : RawPoint :=
  { raw with red := p.red, green := p.green, blue := p.blue }

/-- Modelled from the spec: `NirLoader::load` — a uint16 near-infrared value
copied unscaled. -/
def nirLoad (raw : RawPoint) (p : PointView) : PointView :=
  { p with nir := raw.nir }

/-- Modelled from the spec: `NirLoader::pack`. -/
def nirPack (p : PointView) (raw : RawPoint) : RawPoint :=
  { raw with nir := p.nir }

/-- Modelled from the spec: `ExtraDimLoader::load` — each held extra
dimension converts its stored value through its own scale/offset transform
(a dimension of type None copies raw storage, modelled as the identity
transform scale 1, offset 0). -/
def extraLoad (dims : List XForm) (raw : RawPoint) (p : PointView) : PointView :=
  { p with extras := List.zipWith (fun xf r => xf.fromScaled r) dims raw.extras }

/-- Modelled from the spec: `ExtraDimLoader::pack`. -/
def extraPack (dims : List XForm) (p : PointView) (raw : RawPoint) : RawPoint :=
  { raw with extras := List.zipWith (fun xf v => xf.toScaled v) dims p.extras }

/-- Modelled from the spec: the fixed table mapping PDRF 0-10 to whether the
record layout includes GPS time (spec section 4.3; PDRF 3 has GPS time and
color, no NIR). -/
def pdrfHasGps (pdrf : Nat) : Bool :=
  pdrf != 0 && pdrf != 2

/-- Modelled from the spec: the fixed table mapping PDRF 0-10 to whether the
record layout includes color. -/
def pdrfHasColor (pdrf : Nat) : Bool :=
  pdrf == 2 || pdrf == 3 || pdrf == 5 || pdrf == 7 || pdrf == 8 || pdrf == 10

/-- Modelled from the spec: the fixed table mapping PDRF 0-10 to whether the
record layout includes near-infrared. -/
def pdrfHasNir (pdrf : Nat) : Bool :=
  pdrf == 8 || pdrf == 10

/-- Modelled from the spec: the PDRF family table — PDRF 0-5 use the pre-1.4
core layout, PDRF 6-10 the 1.4 extended core layout; other values have no
base loader. -/
def pdrfSupported (pdrf : Nat) : Bool := pdrf ≤ 10

/-- Modelled from the spec: `LoaderDriver::load` for a driver initialised
with `init(pdrf, scaling, dims)` — runs the loader chain (base loader for the
PDRF family, then GPS time / color / NIR when the PDRF's layout has them,
then the extra-dims loader when `dims` is non-empty) and returns true; when
no base loader is configured for the PDRF it returns false and leaves the
point untouched (fails closed, no exception). -/
def driverLoad (pdrf : Nat) (sc : Scaling) (dims : List XForm) (raw : RawPoint)
    (p : PointView) : Bool × PointView :=
  if pdrfSupported pdrf then
    let p1 := if pdrf ≥ 6 then v14Load sc raw p else v10Load sc raw p
    let p2 := if pdrfHasGps pdrf then gpstimeLoad raw p1 else p1
    let p3 := if pdrfHasColor pdrf then colorLoad raw p2 else p2
    let p4 := if pdrfHasNir pdrf then nirLoad raw p3 else p3
    let p5 := if dims.isEmpty then p4 else extraLoad dims raw p4
    (true, p5)
  else (false, p)

/-- Modelled from the spec: `LoaderDriver::pack` — the packing chain in the
same order; returns false for a PDRF with no base loader. -/
def driverPack (pdrf : Nat) (sc : Scaling) (dims : List XForm) (p : PointView)
    (raw : RawPoint) : Bool × RawPoint :=
  if pdrfSupported pdrf then
    let r1 := if pdrf ≥ 6 then v14Pack sc p raw else v10Pack sc p raw
    let r2 := if pdrfHasGps pdrf then gpstimePack p r1 else r1
    let r3 := if pdrfHasColor pdrf then colorPack p r2 else r2
    let r4 := if pdrfHasNir pdrf then nirPack p r3 else r3
    let r5 := if dims.isEmpty then r4 else extraPack dims p r4
    (true, r5)
  else (false, raw)

/-! ## VlrCatalog (Utils.hpp lines 326-353)

The catalog bodies also live in the implementation file; they are modelled
from the specification (section 4.4).  The caller-supplied range-read
function takes an offset and a size and yields bytes. -/

/-- Embeds `VlrCatalog::Entry` (Utils.hpp lines 330-336).  The fixed-width
16-byte user id is modelled as the list of its bytes. -/
structure VlrEntry where
  userId : List Nat
  recordId : Nat
  offset : Nat
  length : Nat
deriving DecidableEq, Repr

/-- Embeds the `VlrCatalog` state: the caller-supplied range-read function
and the ordered entry sequence. -/
structure VlrCatalog where
  readF : Nat → Nat → List Nat
  entries : List VlrEntry

/-- Little-endian decoding of a list of bytes into a natural number. -/
def leDecode : List Nat → Nat
  | [] => 0
  | b :: rest => b + 256 * leDecode rest

/-- Modelled from the spec: `VlrCatalog::walkVlrs` — walks `count` standard
VLR headers starting at `off`; each header is 54 bytes (2 reserved, 16 user
id, 2 record id, 2 payload length, 32 description) followed immediately by
the payload, whose offset/length are recorded without fetching it; the next
header follows the payload. -/
def walkVlrs (readF : Nat → Nat → List Nat) : Nat → Nat → List VlrEntry
  | _, 0 => []
  | off, count + 1 =>
      let hdr := readF off 54
      let uid := (hdr.drop 2).take 16
      let rid := leDecode ((hdr.drop 18).take 2)
      let len := leDecode ((hdr.drop 20).take 2)
      { userId := uid, recordId := rid, offset := off + 54, length := len } ::
        walkVlrs readF (off + 54 + len) count

/-- Modelled from the spec: `VlrCatalog::walkEvlrs` — like `walkVlrs` but the
header is 60 bytes because the payload length field is 8 bytes wide. -/
def walkEvlrs (readF : Nat → Nat → List Nat) : Nat → Nat → List VlrEntry
  | _, 0 => []
  | off, count + 1 =>
      let hdr := readF off 60
      let uid := (hdr.drop 2).take 16
      let rid := leDecode ((hdr.drop 18).take 2)
      let len := leDecode ((hdr.drop 20).take 8)
      { userId := uid, recordId := rid, offset := off + 60, length := len } ::
        walkEvlrs readF (off + 60 + len) count

/-- Modelled from the spec: `VlrCatalog::load(vlrOffset, vlrCount,
evlrOffset, evlrCount)` — walks the standard VLR headers and then the
extended ones, and replaces the previous entry sequence wholesale (a repeated
load discards the previous index rather than appending to it, spec sections
4.4 and 8). -/
def catalogLoad (cat : VlrCatalog) (vlrOffset vlrCount evlrOffset evlrCount : Nat) :
    VlrCatalog :=
  { cat with
    entries := walkVlrs cat.readF vlrOffset vlrCount ++
      walkEvlrs cat.readF evlrOffset evlrCount }

/-- Exact fixed-width match of one catalog entry against a lookup key. -/
def vlrMatches (userId : List Nat) (recordId : Nat) (e : VlrEntry) : Bool :=
  e.userId == userId && e.recordId == recordId

/-- Modelled from the spec: the linear scan inside `VlrCatalog::fetch` — the
first entry matching both fields exactly has the range-read function invoked
on its stored offset and length; when no entry matches the result is the
empty byte sequence. -/
def fetchScan (readF : Nat → Nat → List Nat) (userId : List Nat) (recordId : Nat) :
    List VlrEntry → List Nat
  | [] => []
  | e :: rest =>
      if vlrMatches userId recordId e then readF e.offset e.length
      else fetchScan readF userId recordId rest

/-- Modelled from the spec: `VlrCatalog::fetch(userId, recordId)`. -/
def catalogFetch (cat : VlrCatalog) (userId : List Nat) (recordId : Nat) : List Nat :=
  fetchScan cat.readF userId recordId cat.entries

/-! ## Concrete instances used by witnesses -/

/-- Identity transform: scale 1, offset 0. -/
def xformId : XForm := { scale := 1, offset := 0 }

/-- A Scaling with identity transforms on all three axes. -/
def scalingId : Scaling := { m_xXform := xformId, m_yXform := xformId, m_zXform := xformId }

/-- The centimeter Scaling of the spec's concrete scenario: scale 0.01 and
offset 0 on all three axes. -/
def scalingCm : Scaling :=
  { m_xXform := { scale := 1 / 100, offset := 0 }
    m_yXform := { scale := 1 / 100, offset := 0 }
    m_zXform := { scale := 1 / 100, offset := 0 } }

/-- An all-zero typed point. -/
def pointZero : PointView :=
  { x := 0, y := 0, z := 0, intensity := 0, returnInfo := 0, classification := 0,
    scanAngleRank := 0, userData := 0, pointSourceId := 0, gpstime := 0,
    red := 0, green := 0, blue := 0, nir := 0, extras := [] }

/-- An all-zero raw record. -/
def rawZero : RawPoint :=
  { xi := 0, yi := 0, zi := 0, intensity := 0, returnInfo := 0, classification := 0,
    scanAngleRank := 0, userData := 0, pointSourceId := 0, gpstime := 0,
    red := 0, green := 0, blue := 0, nir := 0, extras := [] }

/-- The raw record of the spec's concrete scenario: raw X is 123456. -/
def rawX123456 : RawPoint := { rawZero with xi := 123456 }

/-! ## Theorems -/

/-- Helper: the linear scan of `fetchScan` agrees with the first-match
characterisation via `List.find?`. -/
theorem fetchScan_eq_find (readF : Nat → Nat → List Nat) (userId : List Nat)
    (recordId : Nat) (entries : List VlrEntry) :
    fetchScan readF userId recordId entries =
      match entries.find? (vlrMatches userId recordId) with
      | some e => readF e.offset e.length
      | none => [] := by
  induction entries with
  | nil => rfl
  | cons e rest ih =>
      by_cases h : vlrMatches userId recordId e = true
      · simp [fetchScan, List.find?_cons, h]
      · rw [Bool.not_eq_true] at h
        simp [fetchScan, List.find?_cons, h, ih]

/-- Claim C2: for every loaded VlrCatalog and every (userId, recordId) pair,
`fetch` returns the bytes obtained by invoking the caller-supplied range-read
function on the stored offset and length of the first entry (in
insertion/discovery order) whose userId and recordId both match exactly, and
returns an empty byte sequence — not an error — when no entry matches. -/
theorem catalogFetch_first_match (cat : VlrCatalog) (userId : List Nat) (recordId : Nat) :
    catalogFetch cat userId recordId =
      match cat.entries.find? (vlrMatches userId recordId) with
      | some e => cat.readF e.offset e.length
      | none => [] :=
  fetchScan_eq_find cat.readF userId recordId cat.entries

/-- Claim C3: reloading replaces the index wholesale and is not additive —
after two successive loads, the entry sequence (and hence everything
observable through fetch) is exactly the one discovered by the second load,
independent of the first. -/
theorem catalogLoad_replaces_wholesale (cat : VlrCatalog)
    (v1 c1 e1 d1 v2 c2 e2 d2 : Nat) (userId : List Nat) (recordId : Nat) :
    (catalogLoad (catalogLoad cat v1 c1 e1 d1) v2 c2 e2 d2).entries =
      walkVlrs cat.readF v2 c2 ++ walkEvlrs cat.readF e2 d2 ∧
    (catalogLoad (catalogLoad cat v1 c1 e1 d1) v2 c2 e2 d2).entries =
      (catalogLoad cat v2 c2 e2 d2).entries ∧
    catalogFetch (catalogLoad (catalogLoad cat v1 c1 e1 d1) v2 c2 e2 d2) userId recordId =
      catalogFetch (catalogLoad cat v2 c2 e2 d2) userId recordId :=
  ⟨rfl, rfl, rfl⟩

/-- Claim C4 (counterexample): the claim that a default-constructed
ExtraByteDescriptor (the read-path pre-state before readFrom populates it)
has all three scale components 0 is false — the default constructor sets
every scale slot to 1.0. -/
theorem extraBytesIfDefault_scale_not_zero :
    ¬ (∀ i : Fin 3, extraBytesIfDefault.m_scale i = 0 ∧ extraBytesIfDefault.m_offset i = 0) := by
  intro h
  have h0 := (h 0).1
  norm_num [extraBytesIfDefault] at h0

/-- Claim C4 (amended): a default-constructed ExtraByteDescriptor has all
three scale components equal to 1 and all three offset components equal to 0;
it is the writer-side constructor that initialises the scales to 0. -/
theorem extraBytesIfDefault_scale_one_offset_zero :
    (∀ i : Fin 3, extraBytesIfDefault.m_scale i = 1 ∧ extraBytesIfDefault.m_offset i = 0) ∧
    (∀ (name : String) (type : DimensionType) (descr : String) (i : Fin 3),
      (extraBytesIfMk name type descr).m_scale i = 0 ∧
        (extraBytesIfMk name type descr).m_offset i = 0) :=
  ⟨fun _ => ⟨rfl, rfl⟩, fun _ _ _ _ => ⟨rfl, rfl⟩⟩

/-- Claim C5: for every PDRF number with no configured base loader (out of
the supported 0-10 range), LoaderDriver load and pack return false and leave
their target untouched, rather than throwing. -/
theorem driver_unsupported_pdrf_fails_closed (pdrf : Nat) (sc : Scaling)
    (dims : List XForm) (raw : RawPoint) (p : PointView)
    (h : pdrfSupported pdrf = false) :
    driverLoad pdrf sc dims raw p = (false, p) ∧
    driverPack pdrf sc dims p raw = (false, raw) := by
  constructor
  · unfold driverLoad
    rw [if_neg (by simp [h])]
  · unfold driverPack
    rw [if_neg (by simp [h])]

/-- Witness for claim C5: PDRF 11 is rejected by both load and pack. -/
theorem driver_unsupported_pdrf_fails_closed_witness :
    driverLoad 11 scalingId [] rawZero pointZero = (false, pointZero) ∧
    driverPack 11 scalingId [] pointZero rawZero = (false, rawZero) :=
  driver_unsupported_pdrf_fails_closed 11 scalingId [] rawZero pointZero (by decide)

/-- Claim C6: ExtraDim equality holds exactly when the names, the underlying
dimension types and the sizes agree; the byte offset and the scale/offset
transform are ignored by the comparison. -/
theorem extraDimEq_iff (ed1 ed2 : ExtraDim) :
    (extraDimEq ed1 ed2 = true ↔
      ed1.m_name = ed2.m_name ∧ ed1.m_dimType.m_type = ed2.m_dimType.m_type ∧
        ed1.m_size = ed2.m_size) ∧
    (∀ (b1 b2 : Int) (xf1 xf2 : XForm),
      extraDimEq
        { ed1 with m_byteOffset := b1,
                   m_dimType := { ed1.m_dimType with m_xform := xf1 } }
        { ed2 with m_byteOffset := b2,
                   m_dimType := { ed2.m_dimType with m_xform := xf2 } } =
        extraDimEq ed1 ed2) := by
  constructor
  · simp [extraDimEq, and_assoc]
  · intro b1 b2 xf1 xf2
    simp [extraDimEq]

/-- Claim C7: the packed Extra Bytes VLR record occupies exactly 192 bytes,
with the fields in the stated order and sizes. -/
theorem extraBytesSpec_layout_and_size :
    extraBytesSpecSize = 192 ∧
    extraBytesSpecLayout =
      [("m_reserved", 2), ("m_dataType", 1), ("m_options", 1), ("m_name", 32),
       ("m_reserved2", 4), ("m_noData", 24), ("m_min", 24), ("m_max", 24),
       ("m_scale", 24), ("m_offset", 24), ("m_description", 32)] :=
  ⟨rfl, rfl⟩

/-- Field-count invariant of the spec: 0 components exactly for type None,
at least one otherwise. -/
def fieldCntInvariant (e : ExtraBytesIf) : Prop :=
  (e.m_type = DimensionType.None → e.m_fieldCnt = 0) ∧
  (e.m_type ≠ DimensionType.None → 1 ≤ e.m_fieldCnt)

/-- Claim C8: both ExtraBytesIf constructors establish the field-count
invariant — the default constructor yields type None with fieldCount 0, and
the writer-side constructor sets fieldCount to 0 exactly when the given type
is None and to 1 otherwise. -/
theorem extraBytesIf_fieldCnt_invariant :
    (extraBytesIfDefault.m_type = DimensionType.None ∧ extraBytesIfDefault.m_fieldCnt = 0) ∧
    fieldCntInvariant extraBytesIfDefault ∧
    (∀ (name : String) (type : DimensionType) (descr : String),
      (extraBytesIfMk name type descr).m_type = type ∧
      (extraBytesIfMk name type descr).m_fieldCnt =
        (if type = DimensionType.None then 0 else 1) ∧
      fieldCntInvariant (extraBytesIfMk name type descr)) := by
  refine ⟨⟨rfl, rfl⟩, ⟨fun _ => rfl, fun h => absurd rfl h⟩, ?_⟩
  intro name type descr
  refine ⟨rfl, rfl, ?_, ?_⟩
  · intro h
    simp only [extraBytesIfMk] at h ⊢
    simp [h]
  · intro h
    simp only [extraBytesIfMk] at h ⊢
    simp [h]

/-- Witness for claim C8: the writer-side constructor at a concrete non-None
type has at least one field. -/
theorem extraBytesIf_fieldCnt_invariant_witness :
    1 ≤ (extraBytesIfMk "foo" DimensionType.Unsigned16 "desc").m_fieldCnt :=
  ((extraBytesIf_fieldCnt_invariant.2.2 "foo" DimensionType.Unsigned16 "desc").2.2).2
    (by decide)

/-- Claim C10: writing any Compression value and reading the token back
yields the same value, and reading is total — any token whose upper-casing is
none of LASZIP, TRUE, LAZPERF parses to Compression.None rather than
failing. -/
theorem compression_roundtrip_and_total :
    (∀ c : Compression, compressionFromString (compressionToString c) = c) ∧
    (∀ s : String, toupper s ≠ "LASZIP" → toupper s ≠ "TRUE" → toupper s ≠ "LAZPERF" →
      compressionFromString s = Compression.None) := by
  constructor
  · intro c
    cases c <;> decide
  · intro s h1 h2 h3
    have h12 : ¬ (toupper s = "LASZIP" ∨ toupper s = "TRUE") := by
      rintro (h | h)
      · exact h1 h
      · exact h2 h
    unfold compressionFromString
    rw [if_neg h12, if_neg h3]

/-- Witness for claim C10: the token foo parses to Compression.None. -/
theorem compression_roundtrip_and_total_witness :
    compressionFromString "foo" = Compression.None :=
  compression_roundtrip_and_total.2 "foo" (by decide) (by decide) (by decide)

/-- Helper: descaling the packed integer lands within half a scale step of
the original value. -/
theorem XForm.round_trip_close (xf : XForm) (h : 0 < xf.scale) (v : ℚ) :
    |xf.fromScaled (xf.toScaled v) - v| ≤ xf.scale / 2 := by
  unfold XForm.fromScaled XForm.toScaled
  have hs : xf.scale ≠ 0 := ne_of_gt h
  set u := (v - xf.offset) / xf.scale with hu
  have husv : u * xf.scale = v - xf.offset := div_mul_cancel₀ _ hs
  have h2 : ((round u : ℚ)) * xf.scale + xf.offset - v = ((round u : ℚ) - u) * xf.scale := by
    rw [sub_mul, husv]
    ring
  rw [h2, abs_mul, abs_of_pos h]
  have h1 : |(round u : ℚ) - u| ≤ 1 / 2 := by
    rw [abs_sub_comm]
    exact abs_sub_round u
  calc |(round u : ℚ) - u| * xf.scale ≤ 1 / 2 * xf.scale :=
        mul_le_mul_of_nonneg_right h1 (le_of_lt h)
    _ = xf.scale / 2 := by ring

/-- Helper: packing a value obtained from a stored integer k reproduces k
exactly (no drift for exact multiples of the scale). -/
theorem XForm.load_pack_exact (xf : XForm) (h : xf.scale ≠ 0) (k : Int) :
    xf.toScaled (xf.fromScaled k) = k := by
  unfold XForm.fromScaled XForm.toScaled
  rw [add_sub_cancel_right, mul_div_cancel_right₀ _ h]
  exact round_intCast k

/-- Helper: the extra-dims round trip, value by value, lands within half of
each dimension's scale step. -/
theorem extras_roundtrip_forall2 (dims : List XForm) (vs : List ℚ)
    (hd : ∀ xf ∈ dims, 0 < xf.scale) :
    List.Forall₂ (fun dv v' => |v' - dv.2| ≤ dv.1.scale / 2) (dims.zip vs)
      (List.zipWith (fun xf r => xf.fromScaled r) dims
        (List.zipWith (fun xf v => xf.toScaled v) dims vs)) := by
  induction dims generalizing vs with
  | nil => simp
  | cons d ds ih =>
      cases vs with
      | nil => simp
      | cons v vs =>
          simp only [List.zip_cons_cons, List.zipWith_cons_cons]
          refine List.Forall₂.cons ?_ (ih vs ?_)
          · exact d.round_trip_close (hd d (List.mem_cons_self d ds)) v
          · intro xf hxf
            exact hd xf (List.mem_cons_of_mem d hxf)

/-- Per-field property relating the point recovered by load-after-pack to
the original point: scaled coordinates land within half a scale step,
pass-through core fields match exactly, the optional GPS
time/color/near-infrared fields match exactly whenever the PDRF's layout has
them, and each extra-bytes value lands within half of its own scale step. -/
def FieldRoundTrip (pdrf : Nat) (sc : Scaling) (dims : List XForm)
    (p p' : PointView) : Prop :=
  |p'.x - p.x| ≤ sc.m_xXform.scale / 2 ∧
  |p'.y - p.y| ≤ sc.m_yXform.scale / 2 ∧
  |p'.z - p.z| ≤ sc.m_zXform.scale / 2 ∧
  p'.intensity = p.intensity ∧
  p'.returnInfo = p.returnInfo ∧
  p'.classification = p.classification ∧
  p'.scanAngleRank = p.scanAngleRank ∧
  p'.userData = p.userData ∧
  p'.pointSourceId = p.pointSourceId ∧
  (pdrfHasGps pdrf = true → p'.gpstime = p.gpstime) ∧
  (pdrfHasColor pdrf = true → p'.red = p.red ∧ p'.green = p.green ∧ p'.blue = p.blue) ∧
  (pdrfHasNir pdrf = true → p'.nir = p.nir) ∧
  (dims.isEmpty = false →
    List.Forall₂ (fun dv v' => |v' - dv.2| ≤ dv.1.scale / 2) (dims.zip p.extras) p'.extras)

/-- Claim C1: for every supported PDRF and dimension transform set, pack
followed by load on the same buffer succeeds and reproduces every typed
field value within the scale/offset rounding tolerance scale/2; and in the
concrete PDRF 3 scenario with scale 0.01 and offset 0, raw X 123456 loads as
1234.56 and packs back to raw 123456 exactly. -/
theorem driver_pack_load_roundtrip (pdrf : Nat) (sc : Scaling) (dims : List XForm)
    (p p0 : PointView) (raw0 : RawPoint)
    (hp : pdrfSupported pdrf = true)
    (hx : 0 < sc.m_xXform.scale) (hy : 0 < sc.m_yXform.scale) (hz : 0 < sc.m_zXform.scale)
    (hd : ∀ xf ∈ dims, 0 < xf.scale) :
    (driverPack pdrf sc dims p raw0).1 = true ∧
    (driverLoad pdrf sc dims (driverPack pdrf sc dims p raw0).2 p0).1 = true ∧
    FieldRoundTrip pdrf sc dims p
      (driverLoad pdrf sc dims (driverPack pdrf sc dims p raw0).2 p0).2 ∧
    (driverLoad 3 scalingCm [] rawX123456 pointZero).2.x = 1234.56 ∧
    (driverPack 3 scalingCm []
      (driverLoad 3 scalingCm [] rawX123456 pointZero).2 rawZero).2.xi = 123456 := by
  refine ⟨?_, ?_, ?_, ?_, ?_⟩
  · simp [driverPack, hp]
  · simp [driverLoad, hp]
  · unfold FieldRoundTrip driverPack driverLoad
    simp only [hp, eq_self_iff_true, if_true, v14Pack, v14Load, ite_self]
    cases hG : pdrfHasGps pdrf <;> cases hC : pdrfHasColor pdrf <;>
      cases hN : pdrfHasNir pdrf <;> cases hE : dims.isEmpty <;>
      simp only [Bool.false_eq_true, Bool.true_eq_false, eq_self_iff_true, if_true,
        if_false, ite_true, ite_false, ite_self, v10Load, v10Pack, gpstimeLoad,
        gpstimePack, colorLoad, colorPack, nirLoad, nirPack, extraLoad, extraPack] <;>
      repeat' apply And.intro
    all_goals
      first
        | exact trivial
        | (apply XForm.round_trip_close <;> assumption)
        | (intro hcond
           first
             | exact hcond.elim
             | exact trivial
             | exact ⟨trivial, trivial, trivial⟩
             | exact extras_roundtrip_forall2 dims p.extras hd)
  · norm_num [driverLoad, pdrfSupported, pdrfHasGps, pdrfHasColor, pdrfHasNir,
      v10Load, v14Load, gpstimeLoad, colorLoad, nirLoad, extraLoad,
      scalingCm, rawX123456, rawZero, pointZero, XForm.fromScaled]
  · norm_num [driverLoad, driverPack, pdrfSupported, pdrfHasGps, pdrfHasColor,
      pdrfHasNir, v10Load, v14Load, v10Pack, v14Pack, gpstimeLoad, colorLoad,
      nirLoad, extraLoad, gpstimePack, colorPack, nirPack, extraPack,
      scalingCm, rawX123456, rawZero, pointZero, XForm.fromScaled, XForm.toScaled,
      round_eq]

/-- Witness for claim C1: the round trip at PDRF 3, centimeter scaling and
one identity-scaled extra dimension. -/
theorem driver_pack_load_roundtrip_witness :
    (driverPack 3 scalingCm [xformId] pointZero rawZero).1 = true ∧
    (driverLoad 3 scalingCm [xformId]
      (driverPack 3 scalingCm [xformId] pointZero rawZero).2 pointZero).1 = true ∧
    FieldRoundTrip 3 scalingCm [xformId] pointZero
      (driverLoad 3 scalingCm [xformId]
        (driverPack 3 scalingCm [xformId] pointZero rawZero).2 pointZero).2 ∧
    (driverLoad 3 scalingCm [] rawX123456 pointZero).2.x = 1234.56 ∧
    (driverPack 3 scalingCm []
      (driverLoad 3 scalingCm [] rawX123456 pointZero).2 rawZero).2.xi = 123456 :=
  driver_pack_load_roundtrip 3 scalingCm [xformId] pointZero pointZero rawZero
    (by decide) (by norm_num [scalingCm]) (by norm_num [scalingCm]) (by norm_num [scalingCm])
    (by intro xf hxf
        simp only [List.mem_singleton] at hxf
        simp [hxf, xformId])

end PdalLas
